import Mathlib

/-!
Verification of the ralph loop controller against its specification.

The Python source (src/ralph/core.py and the phase-aware
ConversationStateTracker from tests/test_nested_compat_fixed.py) is shallowly
embedded below: strings are Lean `String`, JSON values are an inductive
`Json`, wall-clock timestamps are rationals, and the concurrent
supervisor/reader structure is modelled by an explicit `ChildOutcome`
describing what the child process did (the interleaving-sensitive cases are
represented by which constructor applies and which output lines the readers
had consumed).
-/

namespace Ralph

/-! ## String helpers (Python `in`, `startswith`, `lower`) -/

/-- `charsMatchAt needle hay` is true when `needle` occurs at the very start
of `hay` (character-wise). -/
def charsMatchAt : List Char → List Char → Bool
  | [], _ => true
  | _ :: _, [] => false
  | a :: as, b :: bs => a == b && charsMatchAt as bs

/-- `charsContain needle hay` is true when `needle` occurs contiguously
anywhere inside `hay`; the empty needle is always found (Python `in`). -/
def charsContain (needle : List Char) : List Char → Bool
  | [] => charsMatchAt needle []
  | c :: t => charsMatchAt needle (c :: t) || charsContain needle t

/-- Index of the first occurrence of `needle` in `hay` (Python `s.find`,
restricted to the found case by returning an `Option`). -/
def charsFindIdx (hay needle : List Char) : Option Nat :=
  match hay with
  | [] => if charsMatchAt needle [] then some 0 else none
  | c :: t =>
    if charsMatchAt needle (c :: t) then some 0
    else (charsFindIdx t needle).map (· + 1)

/-- Python `needle in hay` on strings. -/
def strContains (hay needle : String) : Bool :=
  charsContain needle.data hay.data

/-- Python `s.startswith(pre)`. -/
def strLeads (s pre : String) : Bool :=
  charsMatchAt pre.data s.data

/-- ASCII case folding, the semantics of `Char.toLower`. -/
def charLower (c : Char) : Char :=
  if c.toNat ≥ 65 && c.toNat ≤ 90 then Char.ofNat (c.toNat + 32) else c

/-- Python `s.lower()` (modelled character-wise, ASCII case folding). -/
def pyLower (s : String) : String :=
  ⟨s.data.map charLower⟩

/-- Python `\s` whitespace class (ASCII part). -/
def isPySpace (c : Char) : Bool :=
  c == ' ' || c == '\t' || c == '\n' || c == '\r' || c == '\x0b' || c == '\x0c'

/-- Python `s.strip()` on character lists. -/
def charsStrip (cs : List Char) : List Char :=
  ((cs.dropWhile isPySpace).reverse.dropWhile isPySpace).reverse

/-- Python `s.strip()`. -/
def pyStrip (s : String) : String :=
  ⟨charsStrip s.data⟩

/-! ## Compaction detection (core.py: COMPACTION_PATTERNS / check_compaction_signal) -/

def COMPACTION_PATTERNS : List String :=
  [ "conversation has been automatically summarized"
  , "conversation has unlimited context through automatic summarization"
  , "the conversation has been compacted"
  , "compacting the conversation"
  , "summarizing previous messages"
  , "context window is nearly full" ]

/-- core.py `check_compaction_signal`: lower-case the raw line and look for
any of the fixed phrase patterns. -/
def checkCompactionSignal (line : String) : Bool :=
  COMPACTION_PATTERNS.any (fun p => strContains (pyLower line) p)

/-! ## Token estimate (core.py: estimate_tokens) -/

/-- core.py `estimate_tokens`: `len(text) // 4`. -/
def estimateTokens (text : String) : Nat :=
  text.length / 4

/-! ## Supervisor and iteration outcome (core.py: StreamingSubprocess /
run_cli_iteration)

`stream_output_reader` appends each line it reads to the capture buffer,
(for stdout with a log file) classifies it with `process_json_line`, and
then checks it for a compaction signal; at the first match it sets the
shared compaction event and returns, so the capture is the prefix of the
stream up to and including the first compaction line.  `readConsumed` is
that prefix for a reader with no log file attached (the stderr reader),
where no classifier runs between capture and compaction check.  The stdout
reader as configured by `main` (log file always attached) additionally runs
the classifier first, and an exception escaping it ends the loop before the
compaction check — that variant is `stdoutReaderRun` further below, used for
the claim about compaction forcing failure. -/

/-- Lines a `stream_output_reader` thread with no attached log file (the
stderr reader) consumes from a stream that emits `lines`: everything up to
and including the first compaction-signal line. -/
def readConsumed : List String → List String
  | [] => []
  | l :: ls => if checkCompactionSignal l then [l] else l :: readConsumed ls

/-- What one subprocess run did, as observed by `run_cli_iteration`:

* `completed rc stdoutLines stderrLines` — the wait loop returned: either the
  child exited by itself with code `rc`, or the compaction event fired first
  and the wait loop terminated the child and synthesised return code 0
  (which of the two happened is decided by whether the consumed lines
  contain a compaction signal, exactly as in `wait_with_timeout`);
* `timedOut stdoutLines stderrLines` — the wall-clock budget expired before
  either of the above; the listed lines are the ones the readers had
  consumed by the time of the kill (`StreamingSubprocess.kill` then reads
  the compaction event, which is set exactly when one of those consumed
  lines carried a compaction signal);
* `launchFailed msg` — `subprocess.Popen` (or the context manager) raised. -/
inductive ChildOutcome where
  | completed (rc : Int) (stdoutLines stderrLines : List String)
  | timedOut (stdoutLines stderrLines : List String)
  | launchFailed (msg : String)
deriving DecidableEq

/-- Subset of core.py `IterationResult` relevant to the claims. -/
structure IterationResult where
  success : Bool
  output : String
  error : Option String
  maxTurnsReached : Bool
  timeoutOccurred : Bool
  compactionDetected : Bool
  inputTokens : Nat
  outputTokens : Nat
deriving DecidableEq, Repr

/-- core.py `run_cli_iteration` (result assembly for each of its three exit
paths, with `wait_with_timeout` inlined). -/
def runCliIteration (prompt : String) (timeout : Nat) (o : ChildOutcome) :
    IterationResult :=
  match o with
  | .completed rc stdoutLines stderrLines =>
    let stdoutText := String.join (readConsumed stdoutLines)
    let stderrText := String.join (readConsumed stderrLines)
    let compaction :=
      (readConsumed stdoutLines).any checkCompactionSignal
        || (readConsumed stderrLines).any checkCompactionSignal
    -- wait_with_timeout returns return code 0 in its compaction branch
    let returncode : Int := if compaction then 0 else rc
    let combined := stdoutText ++ stderrText
    { success := returncode == 0 && !compaction
      output := stdoutText
      error := if returncode != 0 then some stderrText else none
      maxTurnsReached :=
        strContains (pyLower combined) "max turns"
          || strContains (pyLower combined) "reached max turns"
      timeoutOccurred := false
      compactionDetected := compaction
      inputTokens := estimateTokens prompt
      outputTokens := estimateTokens stdoutText }
  | .timedOut stdoutLines stderrLines =>
    let stdoutText := String.join (readConsumed stdoutLines)
    let compaction :=
      (readConsumed stdoutLines).any checkCompactionSignal
        || (readConsumed stderrLines).any checkCompactionSignal
    { success := false
      output := stdoutText
      error := some ("Iteration timed out after " ++ toString timeout ++ " seconds")
      maxTurnsReached := false
      timeoutOccurred := true
      compactionDetected := compaction
      inputTokens := estimateTokens prompt
      outputTokens := estimateTokens stdoutText }
  | .launchFailed msg =>
    { success := false
      output := ""
      error := some msg
      maxTurnsReached := false
      timeoutOccurred := false
      compactionDetected := false
      inputTokens := estimateTokens prompt
      outputTokens := 0 }

/-! ## Completion signal and control-loop decision (core.py: check_completion
and the per-iteration tail of `main`) -/

def COMPLETION_SIGNAL_TEXT : String := "RALPH_LOOP_COMPLETE"

def COMPLETION_SIGNAL_EMOJI : String := "🎯"

/-- core.py `check_completion`: both the marker token and the marker emoji
must be present in the captured output. -/
def checkCompletion (result : IterationResult) : Bool :=
  strContains result.output COMPLETION_SIGNAL_TEXT
    && strContains result.output COMPLETION_SIGNAL_EMOJI

/-- What the control loop decides after inspecting one iteration result. -/
inductive LoopDecision where
  | continueNext
  | stopSuccess
  | stopHuman
deriving DecidableEq, Repr

/-- Observable behaviour of one pass through the decision tail of `main`:
the decision itself, whether the failure branch printed its error report,
and whether `human_in_the_loop()` paused for the operator. -/
structure StepOutcome where
  decision : LoopDecision
  failureReported : Bool
  humanPaused : Bool
deriving DecidableEq, Repr

/-- The decision tail of core.py `main` for one iteration result.  `hitl` is
`args.human_in_the_loop`; `humanChoice` is what `human_in_the_loop()` would
return if consulted (`true` = continue). -/
def evaluateOutcome (result : IterationResult) (hitl humanChoice : Bool) :
    StepOutcome :=
  if result.compactionDetected then
    if hitl then
      if humanChoice then ⟨.continueNext, false, true⟩
      else ⟨.stopHuman, false, true⟩
    else ⟨.continueNext, false, false⟩
  else if !result.success then
    if hitl then
      if humanChoice then ⟨.continueNext, true, true⟩
      else ⟨.stopHuman, true, true⟩
    else ⟨.continueNext, true, false⟩
  else if checkCompletion result then ⟨.stopSuccess, false, false⟩
  else if hitl then
    if humanChoice then ⟨.continueNext, false, true⟩
    else ⟨.stopHuman, false, true⟩
  else ⟨.continueNext, false, false⟩

/-! ## JSON values and Python-value semantics

`json.loads` of one protocol line yields a Python value modelled by `Json`
(`none` at the use sites below models a `json.JSONDecodeError`).  Numbers
are modelled by `Int`: the protocol fields the tracker inspects are ids and
discriminator strings, never fractional numbers. -/

inductive Json where
  | null
  | bool (b : Bool)
  | num (n : Int)
  | str (s : String)
  | arr (items : List Json)
  | obj (entries : List (String × Json))

mutual

/-- Python `==` on parsed JSON values.  Python treats `bool` as `int`, so
`True == 1`; dict equality is modelled entry-wise in order (parsed objects
are compared against string literals and hashable set elements only, where
this coincides with Python). -/
def pyEq : Json → Json → Bool
  | .null, .null => true
  | .bool a, .bool b => a == b
  | .bool a, .num n => (if a then (1 : Int) else 0) == n
  | .num n, .bool b => n == (if b then (1 : Int) else 0)
  | .num a, .num b => a == b
  | .str a, .str b => a == b
  | .arr a, .arr b => pyEqList a b
  | .obj a, .obj b => pyEqEntries a b
  | _, _ => false

/-- Element-wise Python `==` on lists. -/
def pyEqList : List Json → List Json → Bool
  | [], [] => true
  | x :: xs, y :: ys => pyEq x y && pyEqList xs ys
  | _, _ => false

/-- Entry-wise Python `==` on object entry lists. -/
def pyEqEntries : List (String × Json) → List (String × Json) → Bool
  | [], [] => true
  | (k1, v1) :: xs, (k2, v2) :: ys => k1 == k2 && pyEq v1 v2 && pyEqEntries xs ys
  | _, _ => false

end

/-- Python truthiness of a parsed JSON value. -/
def truthy : Json → Bool
  | .null => false
  | .bool b => b
  | .num n => n != 0
  | .str s => !(s == "")
  | .arr items => !items.isEmpty
  | .obj entries => !entries.isEmpty

/-- Python hashability: lists and dicts are unhashable (`set.add` and `in`
raise `TypeError` on them). -/
def hashable : Json → Bool
  | .arr _ => false
  | .obj _ => false
  | _ => true

/-- Python `d.get(k)` on a parsed JSON object: first entry wins (parsed
objects have unique keys, so this is dict access). -/
def lookupKey (entries : List (String × Json)) (k : String) : Option Json :=
  (entries.find? (fun e => e.1 == k)).map (fun e => e.2)

/-- Python set membership via `==`. -/
def setMem (s : List Json) (x : Json) : Bool :=
  s.any (fun y => pyEq y x)

/-- Python `set.add`. -/
def setAdd (s : List Json) (x : Json) : List Json :=
  if setMem s x then s else x :: s

/-- Python `set.discard`. -/
def setRemove (s : List Json) (x : Json) : List Json :=
  s.filter (fun y => !pyEq y x)

/-! ## Phase-aware conversation state tracker
(tests/test_nested_compat_fixed.py: `ConversationStateTracker`)

Wall-clock instants (`time.time()` values) are modelled as rationals. -/

structure Tracker where
  pending : List Json
  toolInvocationCount : Nat
  lastToolInvocationTime : Option ℚ
  lastMessageTime : ℚ
  lastTextOnlyMessageTime : Option ℚ
  consecutiveTextOnly : Nat
  sawResultMessage : Bool

/-- `ConversationStateTracker.__init__` at start instant `t0`. -/
def initTracker (t0 : ℚ) : Tracker :=
  { pending := []
    toolInvocationCount := 0
    lastToolInvocationTime := none
    lastMessageTime := t0
    lastTextOnlyMessageTime := none
    consecutiveTextOnly := 0
    sawResultMessage := false }

/-- `obj.get('message', {}).get('content', [])`: `none` models the
`AttributeError` raised when the `message` value is not a dict (that
exception is NOT in the tracker's caught tuple, so processing of the line
stops there, keeping the mutations made so far). -/
def messageContent (entries : List (String × Json)) : Option Json :=
  match (lookupKey entries "message").getD (Json.obj []) with
  | .obj mentries => some ((lookupKey mentries "content").getD (Json.arr []))
  | _ => none

/-- The `for item in content` loop of the `assistant` branch of
`process_line`, with the text-bookkeeping epilogue.  A non-dict item raises
`AttributeError` at `item.get` (uncaught) and an unhashable truthy id raises
`TypeError` at `set.add` (caught); in both cases the loop and its epilogue
are skipped with the state mutated so far kept. -/
def assistantItems (s : Tracker) (t : ℚ) (hasToolUse hasText : Bool) :
    List Json → Tracker
  | [] =>
    if hasText && !hasToolUse then
      { s with lastTextOnlyMessageTime := some t
               consecutiveTextOnly := s.consecutiveTextOnly + 1 }
    else if hasToolUse then
      { s with consecutiveTextOnly := 0 }
    else s
  | item :: rest =>
    match item with
    | .obj ientries =>
      let itemType := (lookupKey ientries "type").getD Json.null
      if pyEq itemType (Json.str "tool_use") then
        let toolId := (lookupKey ientries "id").getD Json.null
        if truthy toolId then
          if hashable toolId then
            assistantItems
              { s with pending := setAdd s.pending toolId
                       toolInvocationCount := s.toolInvocationCount + 1
                       lastToolInvocationTime := some t }
              t true hasText rest
          else s
        else assistantItems s t true hasText rest
      else if pyEq itemType (Json.str "text") then
        assistantItems s t hasToolUse true rest
      else assistantItems s t hasToolUse hasText rest
    | _ => s

/-- The `for item in content` loop of the `user` branch of `process_line`.
A non-dict item raises `AttributeError` (uncaught) and an unhashable
`tool_use_id` raises `TypeError` at `in` (caught); both stop the loop. -/
def userItems (s : Tracker) : List Json → Tracker
  | [] => s
  | item :: rest =>
    match item with
    | .obj ientries =>
      let itemType := (lookupKey ientries "type").getD Json.null
      if pyEq itemType (Json.str "tool_result") then
        let toolId := (lookupKey ientries "tool_use_id").getD Json.null
        if hashable toolId then
          if setMem s.pending toolId then
            userItems { s with pending := setRemove s.pending toolId } rest
          else userItems s rest
        else s
      else userItems s rest
    | _ => s

/-- `ConversationStateTracker.process_line` at instant `t`.  `none` is a
line that fails `json.loads` (caught, no effect); a non-object value raises
`AttributeError` at `obj.get('type')` before any mutation.  A `content`
value that is not a list either raises `TypeError` at `for` (caught) or, for
non-empty strings/dicts, `AttributeError` at `item.get` on its elements; in
every such case only the `last_message_time` update has happened. -/
def processLine (s : Tracker) (t : ℚ) (line : Option Json) : Tracker :=
  match line with
  | none => s
  | some (.obj entries) =>
    let msgType := (lookupKey entries "type").getD Json.null
    let isAssistant := pyEq msgType (Json.str "assistant")
    let isUser := pyEq msgType (Json.str "user")
    let isResult := pyEq msgType (Json.str "result")
    let s1 := if isAssistant || isUser || isResult then
        { s with lastMessageTime := t } else s
    if isAssistant then
      match messageContent entries with
      | some (.arr items) => assistantItems s1 t false false items
      | _ => s1
    else if isUser then
      match messageContent entries with
      | some (.arr items) => userItems s1 items
      | _ => s1
    else if isResult then
      { s1 with sawResultMessage := true }
    else s1
  | some _ => s

/-- Process a timestamped sequence of raw lines in order. -/
def processAll (s : Tracker) : List (ℚ × Option Json) → Tracker
  | [] => s
  | (t, line) :: rest => processAll (processLine s t line) rest

/-- `ConversationStateTracker.in_completion_phase`. -/
def inCompletionPhase (s : Tracker) : Bool :=
  if s.toolInvocationCount == 0 then false
  else if !s.pending.isEmpty then false
  else if s.lastTextOnlyMessageTime.isNone then false
  else if s.consecutiveTextOnly < 2 then false
  else true

/-- `ConversationStateTracker.looks_hung` evaluated at instant `now`. -/
def looksHung (s : Tracker) (now completionTimeout initTimeout : ℚ) : Bool :=
  if s.sawResultMessage then false
  else if s.toolInvocationCount == 0 then
    decide (now - s.lastMessageTime > initTimeout)
  else if !s.pending.isEmpty then false
  else if inCompletionPhase s then
    decide (now - s.lastMessageTime > completionTimeout)
  else
    match s.lastToolInvocationTime with
    | some lt =>
      if now - lt < 30 then false
      else decide (now - s.lastMessageTime > initTimeout)
    | none => decide (now - s.lastMessageTime > initTimeout)

/-! ## Synthetic round-trip transcript (spec §8) -/

/-- One assistant message invoking one tool with the given id. -/
def mkToolUseLine (id : String) : Json :=
  Json.obj [("type", Json.str "assistant"),
    ("message", Json.obj [("content", Json.arr
      [Json.obj [("type", Json.str "tool_use"), ("id", Json.str id),
        ("name", Json.str "Bash"), ("input", Json.obj [])]])])]

/-- One user message carrying the result for the given tool id. -/
def mkToolResultLine (id : String) : Json :=
  Json.obj [("type", Json.str "user"),
    ("message", Json.obj [("content", Json.arr
      [Json.obj [("type", Json.str "tool_result"),
        ("tool_use_id", Json.str id), ("content", Json.str "done")]])])]

/-- One assistant message carrying only text. -/
def mkTextLine (txt : String) : Json :=
  Json.obj [("type", Json.str "assistant"),
    ("message", Json.obj [("content", Json.arr
      [Json.obj [("type", Json.str "text"), ("text", Json.str txt)]])])]

/-- N tool invocations, each immediately followed by its matching result. -/
def roundTripTranscript (t : ℚ) (ids : List String) : List (ℚ × Option Json) :=
  (ids.map (fun id =>
    [(t, some (mkToolUseLine id)), (t, some (mkToolResultLine id))])).flatten

/-- Terminal protocol message. -/
def mkResultLine : Json :=
  Json.obj [("type", Json.str "result"), ("subtype", Json.str "success"),
    ("result", Json.str "Task completed")]

/-- Two consecutive text-only assistant messages with nothing before them. -/
def twoTextTranscript : List (ℚ × Option Json) :=
  [(0, some (mkTextLine "Task complete!")), (0, some (mkTextLine "All tests pass."))]

/-- A worked-then-completed conversation: one tool round trip followed by two
text-only messages, with no terminal result message. -/
def completionHangTranscript : List (ℚ × Option Json) :=
  [(0, some (mkToolUseLine "bash_1")), (1, some (mkToolResultLine "bash_1")),
    (2, some (mkTextLine "Task complete!")), (3, some (mkTextLine "All tests pass."))]

/-! ## Exception behaviour of the log-side classifier
(core.py: process_json_line / stream_output_reader)

`process_json_line` wraps its body in
`except (json.JSONDecodeError, KeyError, TypeError)`.  `PyOutcome` records
how one call ends: normal return, an exception absorbed by that tuple, an
`AttributeError` escaping it, or a call into one of the logging/formatting
handlers (`handle_tool_invocation`, `handle_tool_result`), whose internals
are outside the modelled scope — no theorem below depends on what happens
after `handlerReached`. -/

inductive PyOutcome where
  | ok
  | caught
  | uncaughtAttributeError
  | handlerReached
deriving DecidableEq, Repr

/-- Run per-item outcomes in order, stopping at the first abnormal one. -/
def itemsOutcome (f : Json → PyOutcome) : List Json → PyOutcome
  | [] => .ok
  | item :: rest =>
    match f item with
    | .ok => itemsOutcome f rest
    | o => o

/-- One `content` item of an `assistant` message: a non-dict item raises
`AttributeError` at `item.get('type')`; a `tool_use` item calls
`handle_tool_invocation`; a `text` item logs and returns. -/
def assistantItemOutcome (item : Json) : PyOutcome :=
  match item with
  | .obj ientries =>
    if pyEq ((lookupKey ientries "type").getD Json.null) (Json.str "tool_use") then
      .handlerReached
    else .ok
  | _ => .uncaughtAttributeError

/-- One `content` item of a `user` message: a non-dict item raises
`AttributeError`; a `tool_result` item calls `handle_tool_result`. -/
def userItemOutcome (item : Json) : PyOutcome :=
  match item with
  | .obj ientries =>
    if pyEq ((lookupKey ientries "type").getD Json.null) (Json.str "tool_result") then
      .handlerReached
    else .ok
  | _ => .uncaughtAttributeError

/-- Python `/` is defined for numbers and bools and raises `TypeError`
otherwise (`handle_final_result` computes `duration_ms / 1000`). -/
def pyDivOk : Json → Bool
  | .num _ => true
  | .bool _ => true
  | _ => false

/-- Iterating a `content` value: lists iterate their items; non-empty
strings and dicts yield string elements whose `.get` raises
`AttributeError`; other values raise `TypeError` at `for` (caught). -/
def contentIterOutcome (f : Json → PyOutcome) : Json → PyOutcome
  | .arr items => itemsOutcome f items
  | .str s => if s == "" then .ok else .uncaughtAttributeError
  | .obj mentries => if mentries.isEmpty then .ok else .uncaughtAttributeError
  | _ => .caught

/-- How core.py `process_json_line` ends on one decoded line (`none` is a
line `json.loads` rejects — `JSONDecodeError` is in the caught tuple).  A
valid-JSON line whose top-level value is not an object raises
`AttributeError` at `json_obj.get('type', '')`, which the tuple does not
cover. -/
def processJsonLineOutcome (line : Option Json) : PyOutcome :=
  match line with
  | none => .caught
  | some (.obj entries) =>
    let msgType := (lookupKey entries "type").getD (Json.str "")
    if pyEq msgType (Json.str "assistant") then
      match messageContent entries with
      | none => .uncaughtAttributeError
      | some content => contentIterOutcome assistantItemOutcome content
    else if pyEq msgType (Json.str "user") then
      match messageContent entries with
      | none => .uncaughtAttributeError
      | some content => contentIterOutcome userItemOutcome content
    else if pyEq msgType (Json.str "result") then
      if pyDivOk ((lookupKey entries "duration_ms").getD (Json.num 0)) then .ok
      else .caught
    else if pyEq msgType (Json.str "system") then .ok
    else
      match msgType with
      | .str _ => .ok
      | _ => .uncaughtAttributeError
  | some _ => .uncaughtAttributeError

/-- The prefix of stdout lines that `stream_output_reader` submits to
`process_json_line`: its `try`/`except Exception` wraps the whole `while`
loop, so an uncaught exception ends the loop and no later line is read or
classified (`handlerReached` is treated as a normal return here; no theorem
depends on that case). -/
def streamReaderProcessed : List (Option Json) → List (Option Json)
  | [] => []
  | l :: ls =>
    l :: (match processJsonLineOutcome l with
      | .uncaughtAttributeError => []
      | _ => streamReaderProcessed ls)

/-- One raw stdout line as the reader sees it: the text as read (trailing
newline included) and what `json.loads` yields on its `rstrip('\n')`-ped
form (`none` for a parse failure).  The two fields travel together;
concrete instances below are built consistently. -/
structure RawLine where
  text : String
  parsed : Option Json

/-- The stdout reader as configured by `main` (log file always attached):
each line is appended to the capture buffer, classified by
`process_json_line`, and only then compaction-checked.  An uncaught
`AttributeError` escaping the classifier hits the reader's blanket
`except Exception` and ends the whole loop before that line's compaction
check; a compaction match sets the event and ends the loop after the
capture.  Returns (captured lines, compaction event state).  A
`handlerReached` classifier outcome is treated as a normal return, as in
`streamReaderProcessed`; no theorem depends on that case. -/
def stdoutReaderRun : List RawLine → List RawLine × Bool
  | [] => ([], false)
  | l :: ls =>
    if processJsonLineOutcome l.parsed = PyOutcome.uncaughtAttributeError then
      ([l], false)
    else if checkCompactionSignal l.text then
      ([l], true)
    else
      let rest := stdoutReaderRun ls
      (l :: rest.1, rest.2)

/-- core.py `run_cli_iteration`'s natural-completion path over the faithful
log-streaming stdout reader (`stdoutReaderRun`) and the stderr reader
(`readConsumed`, no log file, so no classifier): the child would exit with
`rc`, and the wait loop reads the compaction event, synthesising return
code 0 when it is set. -/
def runCliIterationStreamed (prompt : String) (rc : Int)
    (stdoutLines : List RawLine) (stderrLines : List String) : IterationResult :=
  let run := stdoutReaderRun stdoutLines
  let stdoutText := String.join (run.1.map RawLine.text)
  let stderrText := String.join (readConsumed stderrLines)
  let compaction := run.2 || (readConsumed stderrLines).any checkCompactionSignal
  let returncode : Int := if compaction then 0 else rc
  let combined := stdoutText ++ stderrText
  { success := returncode == 0 && !compaction
    output := stdoutText
    error := if returncode != 0 then some stderrText else none
    maxTurnsReached :=
      strContains (pyLower combined) "max turns"
        || strContains (pyLower combined) "reached max turns"
    timeoutOccurred := false
    compactionDetected := compaction
    inputTokens := estimateTokens prompt
    outputTokens := estimateTokens stdoutText }

/-! ## Bash result parsing and tool-result display
(core.py: EXIT_CODE_PATTERN / parse_bash_result / truncate_text /
format_tool_result) -/

def BASH_OUTPUT_PREVIEW : Nat := 64

def ERROR_INDICATORS : List String := ["<error>"]

/-- The `[:\s]` character class of `EXIT_CODE_PATTERN`. -/
def isColonOrSpace (c : Char) : Bool :=
  c == ':' || isPySpace c

/-- Decimal value of a digit run (what `int(match.group(1))` computes). -/
def digitsToNat (ds : List Char) : Nat :=
  ds.foldl (fun acc c => acc * 10 + (c.toNat - 48)) 0

/-- Match `EXIT_CODE_PATTERN` = `Exit code[:\s]+(\d+)` (IGNORECASE) at the
start of `cs`, returning the captured number.  The greedy `[:\s]+` never
overlaps `\d`, so maximal munch needs no backtracking. -/
def matchExitCodeAt (cs : List Char) : Option Nat :=
  if (cs.take 9).map charLower = "exit code".data then
    let rest := cs.drop 9
    let seps := rest.takeWhile isColonOrSpace
    if seps.isEmpty then none
    else
      let ds := (rest.drop seps.length).takeWhile Char.isDigit
      if ds.isEmpty then none else some (digitsToNat ds)
  else none

/-- `EXIT_CODE_PATTERN.search`: leftmost match wins. -/
def findExitCode : List Char → Option Nat
  | [] => none
  | c :: t =>
    match matchExitCodeAt (c :: t) with
    | some n => some n
    | none => findExitCode t

/-- `EXIT_CODE_PATTERN.search` over a string. -/
def searchExitCode (s : String) : Option Nat :=
  findExitCode s.data

/-- core.py `parse_bash_result`: exit code from the pattern (0 when absent),
preview from the lines before the first line mentioning "exit code". -/
def parseBashResult (resultContent : String) : Int × String :=
  let exitCode : Int :=
    match searchExitCode resultContent with
    | some n => Int.ofNat n
    | none => 0
  let outputLines := (resultContent.splitOn "\n").takeWhile
    (fun l => !strContains (pyLower l) "exit code")
  (exitCode, pyStrip (String.intercalate "\n" outputLines))

/-- The `[0]` component of `s.rsplit(' ', 1)` for a string containing a
space: everything before the last space. -/
def pyRsplitHead (s : String) : String :=
  ⟨((s.data.reverse.dropWhile (fun c => !(c == ' '))).drop 1).reverse⟩

/-- core.py `truncate_text`. -/
def truncateText (text : String) (maxLen : Nat) (smart : Bool)
    (indicator : String) : String :=
  if text.length ≤ maxLen then text
  else
    let pre : String := ⟨text.data.take maxLen⟩
    let truncated := if smart && pre.data.contains ' ' then pyRsplitHead pre else pre
    truncated ++ indicator

/-- First `<error>(.*?)</error>` group (DOTALL, non-greedy): the text
between the first `<error>` and the first `</error>` after it. -/
def extractErrorTag (s : String) : Option String :=
  match charsFindIdx s.data ("<error>".data) with
  | none => none
  | some i =>
    let after := s.data.drop (i + 7)
    match charsFindIdx after ("</error>".data) with
    | none => none
    | some j => some ⟨after.take j⟩

/-- core.py `format_tool_result` (thousands separators of `f"{n:,}"` are not
reproduced; no theorem below inspects that branch's digits). -/
def formatToolResult (resultContent : String) (isError : Bool)
    (toolSummary : String) : String :=
  let hasError := isError
    || ERROR_INDICATORS.any (fun ind => strContains resultContent ind)
  if hasError then
    match extractErrorTag resultContent with
    | some msg => "  ✗ Error: " ++ truncateText (pyStrip msg) 200 true "..."
    | none => "  ✗ Error: " ++ truncateText resultContent 200 true "..."
  else if strLeads toolSummary "⚡ Bash" then
    let parsed := parseBashResult resultContent
    let statusIcon := if parsed.1 != 0 then "✗" else "✓"
    if !(parsed.2 == "") then
      "  " ++ statusIcon ++ " Exit " ++ toString parsed.1 ++ ": "
        ++ truncateText parsed.2 BASH_OUTPUT_PREVIEW true "..."
    else
      "  " ++ statusIcon ++ " Exit " ++ toString parsed.1
  else
    if resultContent.length > 1000 then
      "  ✓ Completed (" ++ toString resultContent.length ++ " chars)"
    else
      "  ✓ Completed"

/-! ## Lemmas about the supervisor model -/

/-- A successful iteration carries neither abnormal-termination flag. -/
theorem runCli_success_flags (prompt : String) (timeout : Nat) (o : ChildOutcome)
    (h : (runCliIteration prompt timeout o).success = true) :
    (runCliIteration prompt timeout o).timeoutOccurred = false ∧
      (runCliIteration prompt timeout o).compactionDetected = false := by
  cases o with
  | completed rc so se =>
    simp only [runCliIteration, Bool.and_eq_true, Bool.not_eq_eq_eq_not, Bool.not_true] at h ⊢
    exact ⟨trivial, h.2⟩
  | timedOut so se => simp [runCliIteration] at h
  | launchFailed msg => simp [runCliIteration] at h

/-- The compaction flag forces `success = false`. -/
theorem runCli_compaction_not_success (prompt : String) (timeout : Nat)
    (o : ChildOutcome) (h : (runCliIteration prompt timeout o).compactionDetected = true) :
    (runCliIteration prompt timeout o).success = false := by
  cases o with
  | completed rc so se =>
    simp only [runCliIteration] at h ⊢
    simp [h]
  | timedOut so se => rfl
  | launchFailed msg => rfl

/-! ## Claim theorems: iteration outcome and control loop -/

/-- C6 counterexample: when the compaction signal arrives during a run that
then hits the wall-clock timeout, the constructed `IterationResult` carries
both `timeout_occurred = true` and `compaction_detected = true` (the code
logs this very case as "COMPACTION DETECTED during timeout"). -/
theorem C6_counterexample :
    (runCliIteration "p" 600
        (ChildOutcome.timedOut ["context window is nearly full\n"] [])).timeoutOccurred = true
    ∧ (runCliIteration "p" 600
        (ChildOutcome.timedOut ["context window is nearly full\n"] [])).compactionDetected = true := by
  constructor
  · rfl
  · decide

/-- C6 (amended): `success = true` implies that neither flag is set, and the
only way both flags are set together is the timeout path with a compaction
signal among the lines consumed before the kill; outside the timeout path at
most one of the two flags is true. -/
theorem C6_flag_invariant_amended (prompt : String) (timeout : Nat) (o : ChildOutcome) :
    ((runCliIteration prompt timeout o).success = true →
      (runCliIteration prompt timeout o).timeoutOccurred = false ∧
        (runCliIteration prompt timeout o).compactionDetected = false)
    ∧ ((runCliIteration prompt timeout o).timeoutOccurred = true ∧
          (runCliIteration prompt timeout o).compactionDetected = true →
        ∃ so se, o = ChildOutcome.timedOut so se ∧
          ((readConsumed so).any checkCompactionSignal
            || (readConsumed se).any checkCompactionSignal) = true) := by
  refine ⟨runCli_success_flags prompt timeout o, ?_⟩
  rintro ⟨hto, hcomp⟩
  cases o with
  | completed rc so se => exact absurd hto (by simp [runCliIteration])
  | timedOut so se =>
    refine ⟨so, se, rfl, ?_⟩
    simpa [runCliIteration] using hcomp
  | launchFailed msg => exact absurd hto (by simp [runCliIteration])

/-- C6 amended witness: a clean zero-exit run has both flags clear. -/
theorem C6_flag_invariant_witness :
    (runCliIteration "p" 600 (ChildOutcome.completed 0 ["ok\n"] [])).success = true
    ∧ ((runCliIteration "p" 600 (ChildOutcome.completed 0 ["ok\n"] [])).timeoutOccurred = false
      ∧ (runCliIteration "p" 600 (ChildOutcome.completed 0 ["ok\n"] [])).compactionDetected = false) :=
  ⟨by decide,
    (C6_flag_invariant_amended "p" 600 (ChildOutcome.completed 0 ["ok\n"] [])).1 (by decide)⟩

/-- C7: the control loop decides stop-success exactly when the iteration
succeeded and its output contains both the completion marker token and the
completion marker emoji; the token alone does not stop the loop. -/
theorem C7_stop_success_iff_token_and_emoji
    (prompt : String) (timeout : Nat) (o : ChildOutcome) (hitl humanChoice : Bool) :
    (evaluateOutcome (runCliIteration prompt timeout o) hitl humanChoice).decision =
        LoopDecision.stopSuccess ↔
      ((runCliIteration prompt timeout o).success = true
        ∧ strContains (runCliIteration prompt timeout o).output COMPLETION_SIGNAL_TEXT = true
        ∧ strContains (runCliIteration prompt timeout o).output COMPLETION_SIGNAL_EMOJI = true) := by
  set r := runCliIteration prompt timeout o with hr
  by_cases hcomp : r.compactionDetected = true
  · have hs : r.success = false := runCli_compaction_not_success prompt timeout o (hr ▸ hcomp)
    constructor
    · intro h
      exfalso
      cases hitl <;> cases humanChoice <;>
        simp [evaluateOutcome, hcomp] at h
    · rintro ⟨h1, -⟩
      rw [hs] at h1
      cases h1
  · simp only [Bool.not_eq_true] at hcomp
    by_cases hs : r.success = true
    · by_cases hcpl : checkCompletion r = true
      · have := hcpl
        simp only [checkCompletion, Bool.and_eq_true] at this
        simp [evaluateOutcome, hcomp, hs, hcpl, this.1, this.2]
      · simp only [Bool.not_eq_true] at hcpl
        constructor
        · intro h
          exfalso
          cases hitl <;> cases humanChoice <;>
            simp [evaluateOutcome, hcomp, hs, hcpl] at h
        · rintro ⟨-, ht, he⟩
          have : checkCompletion r = true := by
            simp [checkCompletion, ht, he]
          rw [hcpl] at this
          cases this
    · simp only [Bool.not_eq_true] at hs
      constructor
      · intro h
        exfalso
        cases hitl <;> cases humanChoice <;>
          simp [evaluateOutcome, hcomp, hs] at h
      · rintro ⟨h1, -⟩
        rw [hs] at h1
        cases h1

/-- C8 counterexample: with human-in-the-loop mode enabled, a
compaction-detected iteration pauses for the operator (who may stop the
loop), so the loop does not continue immediately regardless of
configuration. -/
theorem C8_counterexample :
    (runCliIteration "p" 600
        (ChildOutcome.completed 0 ["context window is nearly full\n"] [])).compactionDetected = true
    ∧ (evaluateOutcome
        (runCliIteration "p" 600
          (ChildOutcome.completed 0 ["context window is nearly full\n"] []))
        true false).humanPaused = true
    ∧ (evaluateOutcome
        (runCliIteration "p" 600
          (ChildOutcome.completed 0 ["context window is nearly full\n"] []))
        true false).decision ≠ LoopDecision.continueNext := by
  refine ⟨by decide, ?_, ?_⟩ <;> decide

/-- C8 (amended): a compaction-detected iteration never takes the failure
branch; with human-in-the-loop disabled the loop continues immediately with
no pause; with it enabled the operator is consulted and decides whether the
loop continues or stops. -/
theorem C8_compaction_continue_amended (r : IterationResult) (hc : Bool)
    (h : r.compactionDetected = true) :
    (evaluateOutcome r false hc).decision = LoopDecision.continueNext
    ∧ (evaluateOutcome r false hc).failureReported = false
    ∧ (evaluateOutcome r false hc).humanPaused = false
    ∧ (evaluateOutcome r true hc).failureReported = false
    ∧ (evaluateOutcome r true hc).humanPaused = true
    ∧ (evaluateOutcome r true hc).decision =
        (if hc then LoopDecision.continueNext else LoopDecision.stopHuman) := by
  cases hc <;> simp [evaluateOutcome, h]

/-- C8 amended witness. -/
theorem C8_compaction_continue_witness :
    (runCliIteration "p" 600
        (ChildOutcome.completed 0 ["context window is nearly full\n"] [])).compactionDetected = true
    ∧ ((evaluateOutcome
          (runCliIteration "p" 600
            (ChildOutcome.completed 0 ["context window is nearly full\n"] []))
          false false).decision = LoopDecision.continueNext
      ∧ (evaluateOutcome
          (runCliIteration "p" 600
            (ChildOutcome.completed 0 ["context window is nearly full\n"] []))
          false false).failureReported = false
      ∧ (evaluateOutcome
          (runCliIteration "p" 600
            (ChildOutcome.completed 0 ["context window is nearly full\n"] []))
          false false).humanPaused = false
      ∧ (evaluateOutcome
          (runCliIteration "p" 600
            (ChildOutcome.completed 0 ["context window is nearly full\n"] []))
          true false).failureReported = false
      ∧ (evaluateOutcome
          (runCliIteration "p" 600
            (ChildOutcome.completed 0 ["context window is nearly full\n"] []))
          true false).humanPaused = true
      ∧ (evaluateOutcome
          (runCliIteration "p" 600
            (ChildOutcome.completed 0 ["context window is nearly full\n"] []))
          true false).decision =
          (if false then LoopDecision.continueNext else LoopDecision.stopHuman)) :=
  ⟨by decide,
    C8_compaction_continue_amended
      (runCliIteration "p" 600
        (ChildOutcome.completed 0 ["context window is nearly full\n"] []))
      false (by decide)⟩

/-! ## Lemmas about the tracker -/

/-- Data invariant maintained by the tracker: a pending tool call implies
work has been counted, and a positive consecutive-text count implies a
recorded last-text-only instant. -/
def TrackerInv (s : Tracker) : Prop :=
  (s.pending.isEmpty = false → s.toolInvocationCount ≠ 0) ∧
    (s.consecutiveTextOnly ≠ 0 → s.lastTextOnlyMessageTime.isSome = true)

theorem assistantItems_inv (t : ℚ) (items : List Json) :
    ∀ (s : Tracker) (htu ht : Bool), TrackerInv s →
      TrackerInv (assistantItems s t htu ht items) ∧
        (assistantItems s t htu ht items).sawResultMessage = s.sawResultMessage := by
  induction items with
  | nil =>
    intro s htu ht hs
    simp only [assistantItems]
    split_ifs with h1 h2
    · exact ⟨⟨fun h => hs.1 h, fun _ => rfl⟩, rfl⟩
    · exact ⟨⟨fun h => hs.1 h, fun h => absurd rfl h⟩, rfl⟩
    · exact ⟨hs, rfl⟩
  | cons item rest ih =>
    intro s htu ht hs
    cases item with
    | obj ientries =>
      by_cases hty : pyEq ((lookupKey ientries "type").getD Json.null)
          (Json.str "tool_use") = true
      · by_cases htr : truthy ((lookupKey ientries "id").getD Json.null) = true
        · by_cases hh : hashable ((lookupKey ientries "id").getD Json.null) = true
          · have step := ih
              { s with pending := setAdd s.pending ((lookupKey ientries "id").getD Json.null)
                       toolInvocationCount := s.toolInvocationCount + 1
                       lastToolInvocationTime := some t }
              true ht ⟨fun _ => Nat.succ_ne_zero _, hs.2⟩
            simpa only [assistantItems, hty, if_true, htr, hh] using step
          · simp only [assistantItems, hty, if_true, htr, hh, Bool.false_eq_true, if_false]
            exact ⟨hs, trivial⟩
        · have step := ih s true ht hs
          simpa only [assistantItems, hty, if_true, htr, Bool.false_eq_true, if_false]
            using step
      · by_cases htx : pyEq ((lookupKey ientries "type").getD Json.null)
            (Json.str "text") = true
        · have step := ih s htu true hs
          simpa only [assistantItems, hty, Bool.false_eq_true, if_false, htx, if_true]
            using step
        · have step := ih s htu ht hs
          simpa only [assistantItems, hty, htx, Bool.false_eq_true, if_false] using step
    | null => exact ⟨hs, rfl⟩
    | bool b => exact ⟨hs, rfl⟩
    | num n => exact ⟨hs, rfl⟩
    | str s' => exact ⟨hs, rfl⟩
    | arr xs => exact ⟨hs, rfl⟩

/-- `userItems` can only replace the pending set by a subset of it; every
other field is untouched. -/
theorem userItems_shape (items : List Json) :
    ∀ s : Tracker, ∃ p, userItems s items = { s with pending := p } ∧
      (p.isEmpty = false → s.pending.isEmpty = false) := by
  induction items with
  | nil => intro s; exact ⟨s.pending, rfl, fun h => h⟩
  | cons item rest ih =>
    intro s
    cases item with
    | obj ientries =>
      by_cases hty : pyEq ((lookupKey ientries "type").getD Json.null)
          (Json.str "tool_result") = true
      · by_cases hh : hashable ((lookupKey ientries "tool_use_id").getD Json.null) = true
        · by_cases hm : setMem s.pending ((lookupKey ientries "tool_use_id").getD Json.null)
              = true
          · obtain ⟨p, hp, hmon⟩ := ih
              { s with pending := (setRemove s.pending ((lookupKey ientries "tool_use_id").getD Json.null)) }
            refine ⟨p, ?_, ?_⟩
            · simpa only [userItems, hty, if_true, hh, hm] using hp
            · intro h
              have h2 := hmon h
              by_contra hne
              have : s.pending = [] := by
                cases hpd : s.pending with
                | nil => rfl
                | cons a l => rw [hpd] at hne; simp at hne
              rw [this] at h2
              simp [setRemove] at h2
          · obtain ⟨p, hp, hmon⟩ := ih s
            exact ⟨p, by simpa only [userItems, hty, if_true, hh, hm,
              Bool.false_eq_true, if_false] using hp, hmon⟩
        · exact ⟨s.pending, by simp only [userItems, hty, if_true, hh,
            Bool.false_eq_true, if_false], fun h => h⟩
      · obtain ⟨p, hp, hmon⟩ := ih s
        exact ⟨p, by simpa only [userItems, hty, Bool.false_eq_true, if_false] using hp,
          hmon⟩
    | null => exact ⟨s.pending, rfl, fun h => h⟩
    | bool b => exact ⟨s.pending, rfl, fun h => h⟩
    | num n => exact ⟨s.pending, rfl, fun h => h⟩
    | str s' => exact ⟨s.pending, rfl, fun h => h⟩
    | arr xs => exact ⟨s.pending, rfl, fun h => h⟩

theorem processLine_inv (s : Tracker) (t : ℚ) (line : Option Json)
    (hs : TrackerInv s) :
    TrackerInv (processLine s t line) ∧
      (s.sawResultMessage = true → (processLine s t line).sawResultMessage = true) := by
  match line with
  | none => exact ⟨hs, fun h => h⟩
  | some (.obj entries) =>
    have hA' : TrackerInv { s with lastMessageTime := t } := hs
    rcases hmc : messageContent entries with - | j
    · cases hA : pyEq ((lookupKey entries "type").getD Json.null) (Json.str "assistant") <;>
      cases hU : pyEq ((lookupKey entries "type").getD Json.null) (Json.str "user") <;>
      cases hR : pyEq ((lookupKey entries "type").getD Json.null) (Json.str "result") <;>
        simp only [processLine, hA, hU, hR, hmc, Bool.false_or, Bool.true_or, Bool.or_false,
          Bool.or_true, Bool.false_eq_true, if_false, if_true] <;>
        first
          | exact ⟨hs, fun h => h⟩
          | exact ⟨⟨fun h => hs.1 h, hs.2⟩, fun _ => trivial⟩
    · cases j <;>
      cases hA : pyEq ((lookupKey entries "type").getD Json.null) (Json.str "assistant") <;>
      cases hU : pyEq ((lookupKey entries "type").getD Json.null) (Json.str "user") <;>
      cases hR : pyEq ((lookupKey entries "type").getD Json.null) (Json.str "result") <;>
        simp only [processLine, hA, hU, hR, hmc, Bool.false_or, Bool.true_or, Bool.or_false,
          Bool.or_true, Bool.false_eq_true, if_false, if_true] <;>
        first
          | exact ⟨hs, fun h => h⟩
          | exact ⟨⟨fun h => hs.1 h, hs.2⟩, fun _ => trivial⟩
          | (exact ⟨(assistantItems_inv t _ _ false false hA').1,
              fun h => by rw [(assistantItems_inv t _ _ false false hA').2]; exact h⟩)
          | (obtain ⟨p, hp, hmon⟩ := userItems_shape _ { s with lastMessageTime := t };
             rw [hp];
             exact ⟨⟨fun h => hs.1 (hmon h), hs.2⟩, fun h => h⟩)
  | some .null => exact ⟨hs, fun h => h⟩
  | some (.bool b) => exact ⟨hs, fun h => h⟩
  | some (.num n) => exact ⟨hs, fun h => h⟩
  | some (.str s') => exact ⟨hs, fun h => h⟩
  | some (.arr xs) => exact ⟨hs, fun h => h⟩

theorem processAll_inv (lines : List (ℚ × Option Json)) :
    ∀ s : Tracker, TrackerInv s →
      TrackerInv (processAll s lines) ∧
        (s.sawResultMessage = true → (processAll s lines).sawResultMessage = true) := by
  induction lines with
  | nil => intro s hs; exact ⟨hs, fun h => h⟩
  | cons tl rest ih =>
    intro s hs
    obtain ⟨h1, h2⟩ := processLine_inv s tl.1 tl.2 hs
    obtain ⟨h3, h4⟩ := ih (processLine s tl.1 tl.2) h1
    exact ⟨h3, fun h => h4 (h2 h)⟩

theorem initTracker_inv (t0 : ℚ) : TrackerInv (initTracker t0) := by
  constructor
  · intro h; simp [initTracker] at h
  · intro h; simp [initTracker] at h

/-- `looks_hung` phase 2: pending work is never hung (given the data
invariant relating pending to the work counter). -/
theorem looksHung_false_of_pending (s : Tracker) (now ct it : ℚ)
    (h1 : s.pending.isEmpty = false) (h2 : s.toolInvocationCount ≠ 0) :
    looksHung s now ct it = false := by
  cases hsr : s.sawResultMessage <;> simp [looksHung, hsr, h1, h2]

/-- `looks_hung` first guard: a seen result message is never hung. -/
theorem looksHung_false_of_saw (s : Tracker) (now ct it : ℚ)
    (h : s.sawResultMessage = true) :
    looksHung s now ct it = false := by
  simp [looksHung, h]

theorem processAll_append (a b : List (ℚ × Option Json)) :
    ∀ s : Tracker, processAll s (a ++ b) = processAll (processAll s a) b := by
  induction a with
  | nil => intro s; rfl
  | cons hd tl ih => intro s; exact ih (processLine s hd.1 hd.2)

/-- Evaluating `process_line` on a well-formed tool-use message. -/
theorem processLine_toolUse (s : Tracker) (t : ℚ) (id : String)
    (hid : (id == "") = false) :
    processLine s t (some (mkToolUseLine id)) =
      { s with lastMessageTime := t
               pending := setAdd s.pending (Json.str id)
               toolInvocationCount := s.toolInvocationCount + 1
               lastToolInvocationTime := some t
               consecutiveTextOnly := 0 } := by
  simp [processLine, mkToolUseLine, messageContent, lookupKey, List.find?, assistantItems,
    pyEq, truthy, hashable, hid]

/-- Evaluating `process_line` on the matching tool-result message when the
invocation is the only pending entry. -/
theorem processLine_toolResultMatch (s : Tracker) (t : ℚ) (id : String)
    (hpend : s.pending = [Json.str id]) :
    processLine s t (some (mkToolResultLine id)) =
      { s with lastMessageTime := t, pending := [] } := by
  simp [processLine, mkToolResultLine, messageContent, lookupKey, List.find?, userItems,
    pyEq, hashable, setMem, setRemove, hpend]

theorem processAll_roundTrip (t : ℚ) (ids : List String) :
    ∀ s : Tracker, (∀ id ∈ ids, (id == "") = false) → s.pending = [] →
      (processAll s (roundTripTranscript t ids)).pending = []
        ∧ (processAll s (roundTripTranscript t ids)).toolInvocationCount
            = s.toolInvocationCount + ids.length := by
  induction ids with
  | nil => intro s h hp; exact ⟨hp, rfl⟩
  | cons id rest ih =>
    intro s h hp
    have hexp : roundTripTranscript t (id :: rest)
        = (t, some (mkToolUseLine id)) :: (t, some (mkToolResultLine id))
            :: roundTripTranscript t rest := by
      simp [roundTripTranscript]
    have hstate : processLine (processLine s t (some (mkToolUseLine id))) t
        (some (mkToolResultLine id)) =
        { s with lastMessageTime := t
                 pending := ([] : List Json)
                 toolInvocationCount := s.toolInvocationCount + 1
                 lastToolInvocationTime := some t
                 consecutiveTextOnly := 0 } := by
      rw [processLine_toolUse s t id (h id (by simp))]
      rw [processLine_toolResultMatch _ t id (by simp [hp, setAdd, setMem])]
    rw [hexp]
    show (processAll (processLine (processLine s t (some (mkToolUseLine id))) t
        (some (mkToolResultLine id))) (roundTripTranscript t rest)).pending = []
      ∧ (processAll (processLine (processLine s t (some (mkToolUseLine id))) t
          (some (mkToolResultLine id)))
            (roundTripTranscript t rest)).toolInvocationCount
          = s.toolInvocationCount + (id :: rest).length
    rw [hstate]
    obtain ⟨h1, h2⟩ := ih
      { s with lastMessageTime := t
               pending := ([] : List Json)
               toolInvocationCount := s.toolInvocationCount + 1
               lastToolInvocationTime := some t
               consecutiveTextOnly := 0 }
      (fun i hi => h i (by simp [hi])) rfl
    refine ⟨h1, ?_⟩
    rw [h2]
    simp [List.length_cons]
    omega

/-! ## Claim theorems: the hang detector -/

/-- C2: in every detector state reachable from the initial state by any line
sequence, a non-empty pending-tool set makes `looks_hung` return false, for
every current instant and all timeout parameters. -/
theorem C2_pending_never_hung (t0 : ℚ) (lines : List (ℚ × Option Json))
    (now ct it : ℚ)
    (h : (processAll (initTracker t0) lines).pending.isEmpty = false) :
    looksHung (processAll (initTracker t0) lines) now ct it = false := by
  have hinv := (processAll_inv lines (initTracker t0) (initTracker_inv t0)).1
  exact looksHung_false_of_pending _ now ct it h (hinv.1 h)

/-- C2 witness: one pending tool call, huge elapsed time, tiny timeouts. -/
theorem C2_pending_never_hung_witness :
    (processAll (initTracker 0) [((0 : ℚ), some (mkToolUseLine "tool_1"))]).pending.isEmpty
        = false
    ∧ looksHung (processAll (initTracker 0) [((0 : ℚ), some (mkToolUseLine "tool_1"))])
        1000000 20 90 = false :=
  ⟨by decide, C2_pending_never_hung 0 [((0 : ℚ), some (mkToolUseLine "tool_1"))]
    1000000 20 90 (by decide)⟩

/-- C3: once a terminal result message has been observed, `looks_hung` is
false for every later instant, and processing any further lines can never
clear `saw_result_message`, so it stays false forever. -/
theorem C3_result_never_hung (t0 : ℚ) (lines more : List (ℚ × Option Json))
    (now ct it : ℚ)
    (h : (processAll (initTracker t0) lines).sawResultMessage = true) :
    looksHung (processAll (initTracker t0) lines) now ct it = false
    ∧ (processAll (processAll (initTracker t0) lines) more).sawResultMessage = true
    ∧ looksHung (processAll (processAll (initTracker t0) lines) more) now ct it = false := by
  have hmono := (processAll_inv more (processAll (initTracker t0) lines)
    ((processAll_inv lines (initTracker t0) (initTracker_inv t0)).1)).2 h
  exact ⟨looksHung_false_of_saw _ now ct it h, hmono,
    looksHung_false_of_saw _ now ct it hmono⟩

/-- C3 witness: a result message, then another text line much later. -/
theorem C3_result_never_hung_witness :
    (processAll (initTracker 0) [((0 : ℚ), some mkResultLine)]).sawResultMessage = true
    ∧ (looksHung (processAll (initTracker 0) [((0 : ℚ), some mkResultLine)]) 1000000 20 90
          = false
      ∧ (processAll (processAll (initTracker 0) [((0 : ℚ), some mkResultLine)])
          [((5 : ℚ), some (mkTextLine "late"))]).sawResultMessage = true
      ∧ looksHung (processAll (processAll (initTracker 0) [((0 : ℚ), some mkResultLine)])
          [((5 : ℚ), some (mkTextLine "late"))]) 1000000 20 90 = false) :=
  ⟨by decide, C3_result_never_hung 0 [((0 : ℚ), some mkResultLine)]
    [((5 : ℚ), some (mkTextLine "late"))] 1000000 20 90 (by decide)⟩

/-- C4 counterexample: two consecutive text-only messages with no pending
tool and no result message, elapsed time beyond the completion timeout — yet
`looks_hung` is false, because no tool was ever invoked and the detector is
still in its initialization phase (which uses the longer timeout). -/
theorem C4_counterexample :
    (processAll (initTracker 0) twoTextTranscript).consecutiveTextOnly = 2
    ∧ (processAll (initTracker 0) twoTextTranscript).pending.isEmpty = true
    ∧ (processAll (initTracker 0) twoTextTranscript).sawResultMessage = false
    ∧ ((25 : ℚ) - (processAll (initTracker 0) twoTextTranscript).lastMessageTime > 20)
    ∧ looksHung (processAll (initTracker 0) twoTextTranscript) 25 20 90 = false := by
  refine ⟨by decide, by decide, by decide, ?_, ?_⟩
  · have h : (processAll (initTracker 0) twoTextTranscript).lastMessageTime = 0 := by decide
    rw [h]; norm_num
  · have hcnt : (processAll (initTracker 0) twoTextTranscript).toolInvocationCount = 0 := by
      decide
    have hsaw : (processAll (initTracker 0) twoTextTranscript).sawResultMessage = false := by
      decide
    have hlm : (processAll (initTracker 0) twoTextTranscript).lastMessageTime = 0 := by decide
    simp only [looksHung, hcnt, hsaw, hlm, Bool.false_eq_true, if_false, beq_self_eq_true,
      if_true]
    rw [decide_eq_false_iff_not]
    norm_num

/-- C4 (amended): in every reachable state in which work has happened (at
least one tool invocation), no tool call is pending, no terminal result was
seen and two or more consecutive text-only messages were observed, elapsed
time beyond the completion timeout makes `looks_hung` return true. -/
theorem C4_completion_hang_amended (t0 : ℚ) (lines : List (ℚ × Option Json))
    (now ct it : ℚ)
    (hwork : (processAll (initTracker t0) lines).toolInvocationCount ≠ 0)
    (hpend : (processAll (initTracker t0) lines).pending.isEmpty = true)
    (hsaw : (processAll (initTracker t0) lines).sawResultMessage = false)
    (htext : 2 ≤ (processAll (initTracker t0) lines).consecutiveTextOnly)
    (htime : now - (processAll (initTracker t0) lines).lastMessageTime > ct) :
    looksHung (processAll (initTracker t0) lines) now ct it = true := by
  have hinv := (processAll_inv lines (initTracker t0) (initTracker_inv t0)).1
  have hsome : (processAll (initTracker t0) lines).lastTextOnlyMessageTime.isSome = true :=
    hinv.2 (by omega)
  obtain ⟨v, hv⟩ := Option.isSome_iff_exists.mp hsome
  have hnl : ¬((processAll (initTracker t0) lines).consecutiveTextOnly < 2) := by omega
  have hphase : inCompletionPhase (processAll (initTracker t0) lines) = true := by
    simp [inCompletionPhase, hwork, hpend, hv, hnl]
  simp [looksHung, hsaw, hwork, hpend, hphase, htime]

/-- C4 amended witness: tool round trip, two completion texts, 22 seconds of
silence against a 20-second completion timeout. -/
theorem C4_completion_hang_witness :
    (processAll (initTracker 0) completionHangTranscript).toolInvocationCount ≠ 0
    ∧ (processAll (initTracker 0) completionHangTranscript).pending.isEmpty = true
    ∧ (processAll (initTracker 0) completionHangTranscript).sawResultMessage = false
    ∧ 2 ≤ (processAll (initTracker 0) completionHangTranscript).consecutiveTextOnly
    ∧ ((25 : ℚ) - (processAll (initTracker 0) completionHangTranscript).lastMessageTime > 20)
    ∧ looksHung (processAll (initTracker 0) completionHangTranscript) 25 20 90 = true := by
  have hlm : (processAll (initTracker 0) completionHangTranscript).lastMessageTime = 3 := by
    decide
  refine ⟨by decide, by decide, by decide, by decide, ?_, ?_⟩
  · rw [hlm]; norm_num
  · exact C4_completion_hang_amended 0 completionHangTranscript 25 20 90
      (by decide) (by decide) (by decide) (by decide) (by rw [hlm]; norm_num)

/-- C9: a synthetic transcript of N tool invocations, each immediately
followed by its matching result, ends with an empty pending set and exactly
N counted tool invocations. -/
theorem C9_round_trip (t0 t : ℚ) (ids : List String) (h : ∀ id ∈ ids, id ≠ "") :
    (processAll (initTracker t0) (roundTripTranscript t ids)).pending = []
    ∧ (processAll (initTracker t0) (roundTripTranscript t ids)).toolInvocationCount
        = ids.length := by
  have h' : ∀ id ∈ ids, (id == "") = false := fun id hm => by
    simpa using h id hm
  obtain ⟨h1, h2⟩ := processAll_roundTrip t ids (initTracker t0) h' rfl
  refine ⟨h1, ?_⟩
  rw [h2]
  simp [initTracker]

/-- C9 witness: two invocation/result pairs. -/
theorem C9_round_trip_witness :
    (∀ id ∈ ["tool_a", "tool_b"], id ≠ "")
    ∧ ((processAll (initTracker 0) (roundTripTranscript 0 ["tool_a", "tool_b"])).pending = []
      ∧ (processAll (initTracker 0)
          (roundTripTranscript 0 ["tool_a", "tool_b"])).toolInvocationCount
            = ["tool_a", "tool_b"].length) :=
  ⟨by decide, C9_round_trip 0 0 ["tool_a", "tool_b"] (by decide)⟩

/-! ## Claim theorems: classifier robustness and bash-result display -/

/-- C5 (code bug): the stdout line `3` is valid JSON but not an object, so
`process_json_line` raises `AttributeError` at `json_obj.get('type', '')` —
an exception its `(JSONDecodeError, KeyError, TypeError)` tuple does not
catch — and the blanket `except Exception` around `stream_output_reader`'s
read loop then ends the loop, so the following well-formed line is never
read or classified. -/
theorem C5_nonobject_line_aborts_reader :
    processJsonLineOutcome (some (Json.num 3)) = PyOutcome.uncaughtAttributeError
    ∧ streamReaderProcessed
        [some (Json.num 3), some (Json.obj [("type", Json.str "ping")])]
        = [some (Json.num 3)] := by
  exact ⟨rfl, rfl⟩

/-- C1 (code bug): a child that exits 0 after printing the line `3` and then
a line containing the compaction phrase yields `compaction_detected = false`
and `success = true`.  The stdout reader classifies each line before
compaction-checking it, and the valid-JSON non-object line `3` raises an
uncaught `AttributeError` in `process_json_line` (the C5 slip), ending the
reader loop before the phrase line is ever read — so the claimed (and
spec-required) `compaction_detected = true`, `success = false` never
happens.  The reader stops with only the poison line captured and the
compaction event clear. -/
theorem C1_phrase_missed_after_poison_line :
    strContains (pyLower "context window is nearly full\n")
        "context window is nearly full" = true
    ∧ (stdoutReaderRun
        [RawLine.mk "3\n" (some (Json.num 3)),
          RawLine.mk "context window is nearly full\n" none]).1.map RawLine.text
        = ["3\n"]
    ∧ (stdoutReaderRun
        [RawLine.mk "3\n" (some (Json.num 3)),
          RawLine.mk "context window is nearly full\n" none]).2 = false
    ∧ (runCliIterationStreamed "p" 0
        [RawLine.mk "3\n" (some (Json.num 3)),
          RawLine.mk "context window is nearly full\n" none] []).compactionDetected
        = false
    ∧ (runCliIterationStreamed "p" 0
        [RawLine.mk "3\n" (some (Json.num 3)),
          RawLine.mk "context window is nearly full\n" none] []).success = true := by
  refine ⟨by decide, rfl, rfl, rfl, rfl⟩

theorem charsMatchAt_self_append (a b : List Char) :
    charsMatchAt a (a ++ b) = true := by
  induction a with
  | nil => rfl
  | cons c t ih => simp [charsMatchAt, ih]

theorem charsMatchAt_extend (needle : List Char) :
    ∀ (hay r : List Char), charsMatchAt needle hay = true →
      charsMatchAt needle (hay ++ r) = true := by
  induction needle with
  | nil => intro hay r _; rfl
  | cons a as ih =>
    intro hay r h
    cases hay with
    | nil => exact absurd h (by simp [charsMatchAt])
    | cons b bs =>
      simp only [charsMatchAt, Bool.and_eq_true] at h
      simp only [List.cons_append, charsMatchAt, Bool.and_eq_true]
      exact ⟨h.1, ih bs r h.2⟩

/-- A prefix of `s` is a prefix of `s ++ r`. -/
theorem strLeads_extend (s pre r : String) (h : strLeads s pre = true) :
    strLeads (s ++ r) pre = true :=
  charsMatchAt_extend pre.data s.data r.data h

/-- C10: a Bash tool-result string without an exit-code marker parses as
exit code 0, and (absent error markers) its console line is the success form
starting with "  ✓ Exit 0". -/
theorem C10_missing_marker_is_success (content : String)
    (hnone : searchExitCode content = none) :
    (parseBashResult content).1 = 0
    ∧ (strContains content "<error>" = false →
        strLeads (formatToolResult content false "⚡ Bash: ls") "  ✓ Exit 0" = true) := by
  have hec : (parseBashResult content).1 = 0 := by
    simp [parseBashResult, hnone]
  refine ⟨hec, fun herr => ?_⟩
  have hbash : strLeads "⚡ Bash: ls" "⚡ Bash" = true := by decide
  simp only [formatToolResult, ERROR_INDICATORS, List.any_cons, List.any_nil, herr,
    Bool.or_false, Bool.false_or, Bool.false_eq_true, if_false, hbash, if_true, hec]
  by_cases hp : ((parseBashResult content).2 == "") = true
  · simp only [hp, Bool.not_true, Bool.false_eq_true, if_false]
    decide
  · simp only [Bool.not_eq_true] at hp
    simp only [hp, Bool.not_false, if_true]
    have hY : ("  " ++ (if (0 : Int) != 0 then "✗" else "✓") ++ " Exit "
        ++ toString (0 : Int) ++ ": ") = "  ✓ Exit 0" ++ ": " := by decide
    rw [hY]
    rw [String.append_assoc]
    exact strLeads_extend _ _ _ (by decide)

/-- C10 witness: a two-line result with no exit-code marker. -/
theorem C10_missing_marker_witness :
    searchExitCode "hello\nworld" = none
    ∧ ((parseBashResult "hello\nworld").1 = 0
      ∧ (strContains "hello\nworld" "<error>" = false →
          strLeads (formatToolResult "hello\nworld" false "⚡ Bash: ls") "  ✓ Exit 0"
            = true)) :=
  ⟨by decide, C10_missing_marker_is_success "hello\nworld" (by decide)⟩

end Ralph
